import Mathlib

/-!
Verification of the Airgead Banking schedule calculator.

The repository's algorithmic core is `calculateSchedule` in `src/app.js`
(a byte-identical copy lives in `src/unnamed/part_000`): a month-by-month
simulation over `years * 12` months that optionally adds a fixed monthly
deposit before computing interest, accumulates interest per year, and emits
one `YearSummary` after every 12th month.

JavaScript numbers are IEEE doubles; the simulation itself performs only
`+`, `*`, `/` on them and the specification describes the values as real
numbers, so balances, deposits and rates are embedded as rationals (`ℚ`).
The validation gate `readInputs` additionally distinguishes `NaN`,
`Infinity` and finiteness of the parsed values, so parsed form values are
embedded as an extended number type `JsNum`.
-/

/-- Year-end summary record: the `YearSummary` typedef of `src/app.js`
(fields `year`, `yearEndBalance`, `yearEndInterest`). -/
structure YearSummary where
  year : Nat
  yearEndBalance : ℚ
  yearEndInterest : ℚ
  deriving DecidableEq, Repr

instance : Inhabited YearSummary := ⟨⟨0, 0, 0⟩⟩

/-- Loop state of `calculateSchedule` in `src/app.js`: the `results` array
and the mutable locals `openingBalance`, `interestSoFar`, `year`. -/
structure CalcState where
  results : List YearSummary
  openingBalance : ℚ
  interestSoFar : ℚ
  year : Nat
  deriving DecidableEq, Repr

/-- One iteration of the `for (let month = 1; month <= totalMonths; month++)`
loop body of `calculateSchedule` (src/app.js lines 57-79): compute
`interest = (openingBalance + deposit) * ((annualInterestRate / 100) / 12)`,
accumulate it, form `closingBalance = (openingBalance + deposit) + interest`,
push a `YearSummary` and reset the accumulator when `month % 12 === 0`,
and carry `closingBalance` forward. -/
def calcStep (deposit annualInterestRate : ℚ) (s : CalcState) (month : Nat) : CalcState :=
  let interest := (s.openingBalance + deposit) * (annualInterestRate / 100 / 12)
  let interestSoFar := s.interestSoFar + interest
  let closingBalance := (s.openingBalance + deposit) + interest
  if month % 12 = 0 then
    { results := s.results ++
        [{ year := s.year, yearEndBalance := closingBalance, yearEndInterest := interestSoFar }],
      openingBalance := closingBalance,
      interestSoFar := 0,
      year := s.year + 1 }
  else
    { results := s.results,
      openingBalance := closingBalance,
      interestSoFar := interestSoFar,
      year := s.year }

/-- Run the loop body of `calculateSchedule` for a given number of further
months, the next month number being `month`. `runFrom d a s m n` is the
state after iterations `m, m+1, …, m+n-1`. -/
def runFrom (deposit annualInterestRate : ℚ) : CalcState → Nat → Nat → CalcState
  | s, _, 0 => s
  | s, month, n + 1 =>
      runFrom deposit annualInterestRate
        (calcStep deposit annualInterestRate s month) (month + 1) n

/-- The core calculation `calculateSchedule` of `src/app.js` (lines 46-82):
`totalMonths = years * 12`, `deposit = withDeposit ? monthlyDeposit : 0`,
then the month loop starting at month 1 from
`openingBalance = initialInvestment`, `interestSoFar = 0`, `year = 1`,
returning the `results` array. -/
def calculateSchedule (initialInvestment monthlyDeposit annualInterestRate : ℚ)
    (years : Nat) (withDeposit : Bool) : List YearSummary :=
  let totalMonths := years * 12
  let deposit := if withDeposit then monthlyDeposit else 0
  (runFrom deposit annualInterestRate
    { results := [], openingBalance := initialInvestment, interestSoFar := 0, year := 1 }
    1 totalMonths).results

/-! ### Reference simulation written from the specification (§4)

These definitions follow the words of spec §4 step by step, organised per
simulated year so that the equivalence with the code's single flat month
loop is a genuine theorem (`calculateSchedule_eq_specCompute`).
`yearBalance d r b n` is the balance after `n` months of §4 steps a–d and f
starting from balance `b` (step b: `interest = (openingBalance + deposit) *
monthlyRate`; step d: `closingBalance = openingBalance + deposit + interest`);
`yearInterest d r b n` is the interest those `n` months accrue (step c's
accumulator, starting from 0). -/

/-- Balance after `n` months of the spec §4 month step, monthly rate `rate`,
deposit `deposit`, starting balance `b`. -/
def yearBalance (deposit rate b : ℚ) : Nat → ℚ
  | 0 => b
  | n + 1 =>
      yearBalance deposit rate b n + deposit
        + (yearBalance deposit rate b n + deposit) * rate

/-- Total interest accrued by `n` months of the spec §4 month step (the sum
of the per-month `interest` values of step b), starting balance `b`. -/
def yearInterest (deposit rate b : ℚ) : Nat → ℚ
  | 0 => 0
  | n + 1 =>
      yearInterest deposit rate b n + (yearBalance deposit rate b n + deposit) * rate

/-- Spec §4 step e, per year: the list of `YearSummary` values emitted for
`n` consecutive years, the first labelled `y`, starting from balance `b`.
Each year runs 12 months, emits the closing balance of its 12th month and
the interest accumulated since its first month (the accumulator reset of
step e is reflected by each year's interest starting from 0), and carries
its closing balance into the next year (step f). -/
def specYears (deposit rate : ℚ) : ℚ → Nat → Nat → List YearSummary
  | _, _, 0 => []
  | b, y, n + 1 =>
      { year := y, yearEndBalance := yearBalance deposit rate b 12,
        yearEndInterest := yearInterest deposit rate b 12 }
        :: specYears deposit rate (yearBalance deposit rate b 12) (y + 1) n

/-- Balance after `n` whole years of 12 spec §4 months each. -/
def balAfterYears (deposit rate : ℚ) : ℚ → Nat → ℚ
  | b, 0 => b
  | b, n + 1 => balAfterYears deposit rate (yearBalance deposit rate b 12) n

/-- The reference computation of spec §4: `deposit = applyDeposit ?
monthlyDeposit : 0`, `monthlyRate = (annualRatePercent / 100) / 12`, years
labelled from 1, starting balance `initialBalance`. -/
def specCompute (initialBalance monthlyDeposit annualRatePercent : ℚ)
    (years : Nat) (applyDeposit : Bool) : List YearSummary :=
  specYears (if applyDeposit then monthlyDeposit else 0)
    (annualRatePercent / 100 / 12) initialBalance 1 years

/-! ### Bridging lemmas: the flat month loop computed one year at a time -/

lemma runFrom_add (d a : ℚ) (q : Nat) :
    ∀ (p : Nat) (s : CalcState) (m : Nat),
      runFrom d a s m (p + q) = runFrom d a (runFrom d a s m p) (m + p) q := by
  intro p
  induction p with
  | zero =>
      intro s m
      rw [Nat.zero_add, Nat.add_zero]
      rfl
  | succ p ih =>
      intro s m
      have h1 : p + 1 + q = (p + q) + 1 := by omega
      rw [h1]
      show runFrom d a (calcStep d a s m) (m + 1) (p + q) = _
      rw [ih (calcStep d a s m) (m + 1)]
      have h2 : m + 1 + p = m + (p + 1) := by omega
      rw [h2]
      rfl

lemma runFrom_succ_last (d a : ℚ) (s : CalcState) (m j : Nat) :
    runFrom d a s m (j + 1) = calcStep d a (runFrom d a s m j) (m + j) := by
  rw [runFrom_add d a 1 j s m]
  rfl

lemma yearBalance_succ (d r b : ℚ) (n : Nat) :
    yearBalance d r b (n + 1)
      = yearBalance d r b n + d + (yearBalance d r b n + d) * r := rfl

lemma yearInterest_succ (d r b : ℚ) (n : Nat) :
    yearInterest d r b (n + 1)
      = yearInterest d r b n + (yearBalance d r b n + d) * r := rfl

lemma runFrom_partial (d a : ℚ) (k : Nat) :
    ∀ (j : Nat), j ≤ 11 → ∀ (res : List YearSummary) (b acc : ℚ) (y : Nat),
      runFrom d a ⟨res, b, acc, y⟩ (12 * k + 1) j =
        ⟨res, yearBalance d (a / 100 / 12) b j,
          acc + yearInterest d (a / 100 / 12) b j, y⟩ := by
  intro j
  induction j with
  | zero =>
      intro _ res b acc y
      simp [runFrom, yearBalance, yearInterest]
  | succ j ih =>
      intro hj res b acc y
      rw [runFrom_succ_last, ih (by omega)]
      have hmod : ¬ (12 * k + 1 + j) % 12 = 0 := by omega
      simp only [calcStep]
      rw [if_neg hmod, CalcState.mk.injEq]
      refine ⟨rfl, ?_, ?_, rfl⟩
      · rw [yearBalance_succ]
      · rw [yearInterest_succ]
        ring

lemma runFrom_year (d a : ℚ) (k : Nat) (res : List YearSummary) (b : ℚ) (y : Nat) :
    runFrom d a ⟨res, b, 0, y⟩ (12 * k + 1) 12 =
      ⟨res ++ [⟨y, yearBalance d (a / 100 / 12) b 12, yearInterest d (a / 100 / 12) b 12⟩],
        yearBalance d (a / 100 / 12) b 12, 0, y + 1⟩ := by
  show runFrom d a ⟨res, b, 0, y⟩ (12 * k + 1) (11 + 1) = _
  rw [runFrom_succ_last, runFrom_partial d a k 11 (by omega)]
  have hmod : (12 * k + 1 + 11) % 12 = 0 := by omega
  have hB : yearBalance d (a / 100 / 12) b 12
      = yearBalance d (a / 100 / 12) b 11 + d
        + (yearBalance d (a / 100 / 12) b 11 + d) * (a / 100 / 12) :=
    yearBalance_succ d (a / 100 / 12) b 11
  have hI : yearInterest d (a / 100 / 12) b 12
      = yearInterest d (a / 100 / 12) b 11
        + (yearBalance d (a / 100 / 12) b 11 + d) * (a / 100 / 12) :=
    yearInterest_succ d (a / 100 / 12) b 11
  simp only [calcStep]
  rw [if_pos hmod]
  simp [hB, hI]

lemma runFrom_years (d a : ℚ) :
    ∀ (n k : Nat) (res : List YearSummary) (b : ℚ) (y : Nat),
      runFrom d a ⟨res, b, 0, y⟩ (12 * k + 1) (n * 12) =
        ⟨res ++ specYears d (a / 100 / 12) b y n,
          balAfterYears d (a / 100 / 12) b n, 0, y + n⟩ := by
  intro n
  induction n with
  | zero =>
      intro k res b y
      simp [runFrom, specYears, balAfterYears]
  | succ n ih =>
      intro k res b y
      have h1 : (n + 1) * 12 = 12 + n * 12 := by ring
      rw [h1, runFrom_add d a (n * 12) 12, runFrom_year]
      have h2 : 12 * k + 1 + 12 = 12 * (k + 1) + 1 := by ring
      rw [h2, ih (k + 1)]
      rw [CalcState.mk.injEq]
      refine ⟨?_, ?_, rfl, by omega⟩
      · simp [specYears]
      · rfl

/-- The code's flat month loop computes exactly the per-year reference
simulation of spec §4. Holds for all rational inputs, preconditions aside. -/
lemma calculateSchedule_eq_specCompute (i m a : ℚ) (years : Nat) (dep : Bool) :
    calculateSchedule i m a years dep = specCompute i m a years dep := by
  have h := runFrom_years (if dep then m else 0) a years 0 [] i 1
  show (runFrom (if dep then m else 0) a ⟨[], i, 0, 1⟩ (12 * 0 + 1) (years * 12)).results
      = specCompute i m a years dep
  rw [h]
  simp [specCompute]

/-! ### Structural facts about the per-year reference simulation -/

lemma specYears_length (d r : ℚ) :
    ∀ (n : Nat) (b : ℚ) (y : Nat), (specYears d r b y n).length = n := by
  intro n
  induction n with
  | zero => intro b y; rfl
  | succ n ih => intro b y; simp [specYears, ih]

lemma specYears_map_year (d r : ℚ) :
    ∀ (n : Nat) (b : ℚ) (y : Nat),
      (specYears d r b y n).map YearSummary.year = List.range' y n := by
  intro n
  induction n with
  | zero => intro b y; rfl
  | succ n ih => intro b y; simp [specYears, List.range'_succ, ih]

lemma yearBalance_add (d r b : ℚ) (p : Nat) :
    ∀ (q : Nat), yearBalance d r b (p + q) = yearBalance d r (yearBalance d r b p) q := by
  intro q
  induction q with
  | zero => rfl
  | succ q ih =>
      have h : p + (q + 1) = (p + q) + 1 := by omega
      rw [h, yearBalance_succ, yearBalance_succ, ih]

lemma yearInterest_add (d r b : ℚ) (p : Nat) :
    ∀ (q : Nat),
      yearInterest d r b (p + q)
        = yearInterest d r b p + yearInterest d r (yearBalance d r b p) q := by
  intro q
  induction q with
  | zero => simp [yearInterest]
  | succ q ih =>
      have h : p + (q + 1) = (p + q) + 1 := by omega
      rw [h, yearInterest_succ, yearInterest_succ, ih, yearBalance_add]
      ring

lemma specYears_interest_sum (d r : ℚ) :
    ∀ (n : Nat) (b : ℚ) (y : Nat),
      ((specYears d r b y n).map YearSummary.yearEndInterest).sum
        = yearInterest d r b (n * 12) := by
  intro n
  induction n with
  | zero => intro b y; simp [specYears, yearInterest]
  | succ n ih =>
      intro b y
      have h : (n + 1) * 12 = 12 + n * 12 := by ring
      rw [h, yearInterest_add]
      simp [specYears, ih]

lemma yearBalance_zero_rate (b : ℚ) :
    ∀ (n : Nat), yearBalance 0 0 b n = b := by
  intro n
  induction n with
  | zero => rfl
  | succ n ih => rw [yearBalance_succ, ih]; ring

lemma yearInterest_zero_rate (b : ℚ) :
    ∀ (n : Nat), yearInterest 0 0 b n = 0 := by
  intro n
  induction n with
  | zero => rfl
  | succ n ih => rw [yearInterest_succ, ih]; ring

lemma specYears_zero_rate (b : ℚ) :
    ∀ (n : Nat) (y : Nat) (s : YearSummary), s ∈ specYears 0 0 b y n →
      s.yearEndBalance = b ∧ s.yearEndInterest = 0 := by
  intro n
  induction n with
  | zero => intro y s hs; simp [specYears] at hs
  | succ n ih =>
      intro y s hs
      rw [specYears] at hs
      rcases List.mem_cons.mp hs with h | h
      · subst h
        exact ⟨yearBalance_zero_rate b 12, yearInterest_zero_rate b 12⟩
      · rw [yearBalance_zero_rate b 12] at h
        exact ih (y + 1) s h

/-! ### Monotonicity of the month step in deposit and starting balance -/

lemma yearBalance_mono (r : ℚ) (hr : 0 ≤ r) (d d' b b' : ℚ)
    (hd : d' ≤ d) (hb : b' ≤ b) :
    ∀ (n : Nat), yearBalance d' r b' n ≤ yearBalance d r b n := by
  intro n
  induction n with
  | zero => exact hb
  | succ n ih =>
      rw [yearBalance_succ, yearBalance_succ]
      have h1 : yearBalance d' r b' n + d' ≤ yearBalance d r b n + d := by linarith
      have h2 : (0 : ℚ) ≤ 1 + r := by linarith
      calc yearBalance d' r b' n + d' + (yearBalance d' r b' n + d') * r
          = (yearBalance d' r b' n + d') * (1 + r) := by ring
        _ ≤ (yearBalance d r b n + d) * (1 + r) := mul_le_mul_of_nonneg_right h1 h2
        _ = yearBalance d r b n + d + (yearBalance d r b n + d) * r := by ring

lemma yearBalance_strict_mono (r : ℚ) (hr : 0 ≤ r) (d d' b b' : ℚ)
    (hd : d' ≤ d) (hb : b' ≤ b) (hlt : b' + d' < b + d) :
    ∀ (n : Nat), yearBalance d' r b' (n + 1) < yearBalance d r b (n + 1) := by
  intro n
  induction n with
  | zero =>
      rw [yearBalance_succ, yearBalance_succ]
      have h2 : (0 : ℚ) < 1 + r := by linarith
      calc yearBalance d' r b' 0 + d' + (yearBalance d' r b' 0 + d') * r
          = (b' + d') * (1 + r) := by rw [yearBalance]; ring
        _ < (b + d) * (1 + r) := by exact mul_lt_mul_of_pos_right hlt h2
        _ = yearBalance d r b 0 + d + (yearBalance d r b 0 + d) * r := by
            rw [yearBalance]; ring
  | succ n ih =>
      rw [yearBalance_succ d r b, yearBalance_succ d' r b']
      have h1 : yearBalance d' r b' (n + 1) + d' < yearBalance d r b (n + 1) + d := by
        linarith
      have h2 : (0 : ℚ) < 1 + r := by linarith
      calc yearBalance d' r b' (n + 1) + d' + (yearBalance d' r b' (n + 1) + d') * r
          = (yearBalance d' r b' (n + 1) + d') * (1 + r) := by ring
        _ < (yearBalance d r b (n + 1) + d) * (1 + r) := mul_lt_mul_of_pos_right h1 h2
        _ = yearBalance d r b (n + 1) + d + (yearBalance d r b (n + 1) + d) * r := by
            ring

lemma specYears_zip_dominance (r : ℚ) (hr : 0 ≤ r) (d : ℚ) (hd : 0 ≤ d) :
    ∀ (n : Nat) (b b' : ℚ) (y : Nat), b' ≤ b →
      ∀ p ∈ (specYears 0 r b' y n).zip (specYears d r b y n),
        (YearSummary.yearEndBalance p.1 ≤ YearSummary.yearEndBalance p.2
          ∧ (0 < d → YearSummary.yearEndBalance p.1 < YearSummary.yearEndBalance p.2)) := by
  intro n
  induction n with
  | zero => intro b b' y _ p hp; simp [specYears] at hp
  | succ n ih =>
      intro b b' y hb p hp
      rw [specYears, specYears] at hp
      rcases List.mem_cons.mp hp with h | h
      · subst h
        constructor
        · exact yearBalance_mono r hr d 0 b b' hd hb 12
        · intro hdpos
          exact yearBalance_strict_mono r hr d 0 b b' hd hb (by linarith) 11
      · exact ih (yearBalance d r b 12) (yearBalance 0 r b' 12) (y + 1)
          (yearBalance_mono r hr d 0 b b' hd hb 12) p h

/-! ### The validation gate of `src/app.js` (`readInputs`, lines 250-270)

`readInputs` operates on the four values parsed by `Number(...)` from the
form fields. A parsed JavaScript number is `NaN`, `Infinity`, `-Infinity`
or a finite value; `JsNum` embeds exactly this split, with finite values
as rationals. The predicates below mirror the JavaScript operations the
gate applies to these values: `Number.isNaN`, comparison with `0`, and
`Number.isInteger` (`Number.isFinite`, used elsewhere in `app.js` by
`isValidInputs`, is included for stating finiteness). -/

inductive JsNum where
  | nan : JsNum
  | posInf : JsNum
  | negInf : JsNum
  | finite (q : ℚ) : JsNum
  deriving DecidableEq, Repr

/-- `Number.isNaN(v)`. -/
def JsNum.isNaN : JsNum → Bool
  | .nan => true
  | _ => false

/-- `Number.isFinite(v)`: false for `NaN`, `Infinity` and `-Infinity`. -/
def JsNum.isFinite : JsNum → Bool
  | .finite _ => true
  | _ => false

/-- The JavaScript comparison `v < 0` (false for `NaN`). -/
def JsNum.ltZero : JsNum → Bool
  | .nan => false
  | .posInf => false
  | .negInf => true
  | .finite q => decide (q < 0)

/-- The JavaScript comparison `v <= 0` (false for `NaN`). -/
def JsNum.leZero : JsNum → Bool
  | .nan => false
  | .posInf => false
  | .negInf => true
  | .finite q => decide (q ≤ 0)

/-- `Number.isInteger(v)`: `v` is finite and has no fractional part. -/
def JsNum.isInteger : JsNum → Bool
  | .finite q => q.den == 1
  | _ => false

/-- Result of `readInputs`: either `{ ok: false, message }` or
`{ ok: true, initial, monthly, rate, years }`. -/
inductive ReadResult where
  | rejected (message : String) : ReadResult
  | accepted (initial monthly rate years : JsNum) : ReadResult
  deriving DecidableEq, Repr

/-- The validation gate `readInputs` of `src/app.js` lines 250-270, applied
to the four already-parsed numeric values: reject when any is `NaN`
(`[initial, monthly, rate, years].some(v => Number.isNaN(v))`), then when
`initial < 0 || monthly < 0 || rate < 0`, then when
`!Number.isInteger(years) || years <= 0`; otherwise accept. -/
def readInputs (initial monthly rate years : JsNum) : ReadResult :=
  if initial.isNaN || monthly.isNaN || rate.isNaN || years.isNaN then
    .rejected "Invalid input. Please enter numeric values."
  else if initial.ltZero || monthly.ltZero || rate.ltZero then
    .rejected "Invalid input. Please enter non-negative values."
  else if !years.isInteger || years.leZero then
    .rejected "Invalid input. Please enter a whole number of years greater than 0."
  else
    .accepted initial monthly rate years

/-- Conversion of an accepted parsed value to the rational the embedding of
`calculateSchedule` consumes. An accepted `years` is always finite (the
`Number.isInteger` check guarantees it); an accepted `initial`, `monthly`
or `rate` can still be `Infinity` in JavaScript, which has no rational
counterpart — such values are mapped to 0 here, and no theorem below
depends on that arm. -/
def JsNum.toRatOrZero : JsNum → ℚ
  | .finite q => q
  | _ => 0

/-- Natural-number reading of an accepted `years` value. -/
def JsNum.toYears : JsNum → Nat
  | .finite q => q.num.toNat
  | _ => 0

/-- The calculation driver `runCalculation` of `src/app.js` lines 335-362,
restricted to its data flow: run `readInputs`; on rejection set the error
message and return without invoking the core (`none`); on acceptance invoke
`calculateSchedule` twice on the accepted values, with `withDeposit` false
and true (the two rendered tables). -/
def runCalculation (initial monthly rate years : JsNum) :
    Option (List YearSummary × List YearSummary) :=
  match readInputs initial monthly rate years with
  | .rejected _ => none
  | .accepted i m r y =>
      some (calculateSchedule i.toRatOrZero m.toRatOrZero r.toRatOrZero y.toYears false,
            calculateSchedule i.toRatOrZero m.toRatOrZero r.toRatOrZero y.toYears true)

/-! ### The second copy of the core in `src/unnamed/part_000` (lines 28-64)

The file `src/unnamed/part_000` carries its own `calculateSchedule`. It is
embedded here a second time, independently, so that the extensional
equality of the two copies is a theorem about two separate definitions. -/

namespace Part000

/-- Loop state of `calculateSchedule` in `src/unnamed/part_000`. -/
structure CalcState where
  results : List YearSummary
  openingBalance : ℚ
  interestSoFar : ℚ
  year : Nat
  deriving DecidableEq, Repr

/-- One iteration of the month loop of `calculateSchedule` in
`src/unnamed/part_000` (lines 39-61). -/
def calcStep (deposit annualInterestRate : ℚ) (s : CalcState) (month : Nat) : CalcState :=
  let interest := (s.openingBalance + deposit) * (annualInterestRate / 100 / 12)
  let interestSoFar := s.interestSoFar + interest
  let closingBalance := (s.openingBalance + deposit) + interest
  if month % 12 = 0 then
    { results := s.results ++
        [{ year := s.year, yearEndBalance := closingBalance, yearEndInterest := interestSoFar }],
      openingBalance := closingBalance,
      interestSoFar := 0,
      year := s.year + 1 }
  else
    { results := s.results,
      openingBalance := closingBalance,
      interestSoFar := interestSoFar,
      year := s.year }

/-- The month loop of `src/unnamed/part_000`, iterated from month `m`. -/
def runFrom (deposit annualInterestRate : ℚ) : CalcState → Nat → Nat → CalcState
  | s, _, 0 => s
  | s, month, n + 1 =>
      runFrom deposit annualInterestRate
        (calcStep deposit annualInterestRate s month) (month + 1) n

/-- `calculateSchedule` of `src/unnamed/part_000` (lines 28-64). -/
def calculateSchedule (initialInvestment monthlyDeposit annualInterestRate : ℚ)
    (years : Nat) (withDeposit : Bool) : List YearSummary :=
  let totalMonths := years * 12
  let deposit := if withDeposit then monthlyDeposit else 0
  (runFrom deposit annualInterestRate
    { results := [], openingBalance := initialInvestment, interestSoFar := 0, year := 1 }
    1 totalMonths).results

end Part000

/-- Field-wise correspondence between the two copies' loop states. -/
def stateOfPart000 (s : Part000.CalcState) : CalcState :=
  ⟨s.results, s.openingBalance, s.interestSoFar, s.year⟩

lemma stateOfPart000_calcStep (d a : ℚ) (s : Part000.CalcState) (month : Nat) :
    stateOfPart000 (Part000.calcStep d a s month) = calcStep d a (stateOfPart000 s) month := by
  simp only [Part000.calcStep, calcStep, stateOfPart000]
  by_cases h : month % 12 = 0
  · rw [if_pos h, if_pos h]
  · rw [if_neg h, if_neg h]

lemma stateOfPart000_runFrom (d a : ℚ) :
    ∀ (n : Nat) (s : Part000.CalcState) (m : Nat),
      stateOfPart000 (Part000.runFrom d a s m n) = runFrom d a (stateOfPart000 s) m n := by
  intro n
  induction n with
  | zero => intro s m; rfl
  | succ n ih =>
      intro s m
      show stateOfPart000 (Part000.runFrom d a (Part000.calcStep d a s m) (m + 1) n) = _
      rw [ih, stateOfPart000_calcStep]
      rfl

/-! ### Claims -/

/-- C1: for every input satisfying the precondition (`initialBalance ≥ 0`,
`monthlyDeposit ≥ 0`, `annualRatePercent ≥ 0`, `years` a positive integer),
`calculateSchedule` equals the reference month-by-month simulation of spec
§4: deposit chosen by the flag, each of the `years * 12` months computing
`interest = (openingBalance + deposit) * ((annualRatePercent / 100) / 12)`,
accumulating it, closing at `openingBalance + deposit + interest`, emitting
a `YearSummary` at every multiple of 12 months and resetting the
accumulator, carrying the closing balance forward. -/
theorem calculateSchedule_matches_spec (i m a : ℚ) (years : Nat) (dep : Bool)
    (hi : 0 ≤ i) (hm : 0 ≤ m) (ha : 0 ≤ a) (hy : 1 ≤ years) :
    calculateSchedule i m a years dep = specCompute i m a years dep :=
  calculateSchedule_eq_specCompute i m a years dep

/-- Witness for C1 at `initialBalance = 1000`, `monthlyDeposit = 100`,
`annualRatePercent = 5`, `years = 1`, `applyDeposit = true`. -/
theorem calculateSchedule_matches_spec_witness :
    (0 : ℚ) ≤ 1000 ∧ (0 : ℚ) ≤ 100 ∧ (0 : ℚ) ≤ 5 ∧ (1 : Nat) ≤ 1 ∧
      calculateSchedule 1000 100 5 1 true = specCompute 1000 100 5 1 true :=
  ⟨by norm_num, by norm_num, by norm_num, le_refl 1,
    calculateSchedule_matches_spec 1000 100 5 1 true
      (by norm_num) (by norm_num) (by norm_num) (le_refl 1)⟩

/-- C3: for every input satisfying the precondition the returned sequence
has length exactly `years` and its `year` fields are exactly
`1, 2, …, years` in increasing order with no gaps or repeats (so `years = 1`
yields exactly one summary). -/
theorem schedule_length_and_years (i m a : ℚ) (years : Nat) (dep : Bool)
    (hi : 0 ≤ i) (hm : 0 ≤ m) (ha : 0 ≤ a) (hy : 1 ≤ years) :
    (calculateSchedule i m a years dep).length = years ∧
      (calculateSchedule i m a years dep).map YearSummary.year = List.range' 1 years := by
  simp only [calculateSchedule_eq_specCompute, specCompute]
  exact ⟨specYears_length _ _ years i 1, specYears_map_year _ _ years i 1⟩

/-- Witness for C3 at `years = 1`: exactly one summary, labelled year 1. -/
theorem schedule_length_and_years_witness :
    (0 : ℚ) ≤ 1000 ∧ (0 : ℚ) ≤ 100 ∧ (0 : ℚ) ≤ 5 ∧ (1 : Nat) ≤ 1 ∧
      ((calculateSchedule 1000 100 5 1 false).length = 1 ∧
        (calculateSchedule 1000 100 5 1 false).map YearSummary.year = List.range' 1 1) :=
  ⟨by norm_num, by norm_num, by norm_num, le_refl 1,
    schedule_length_and_years 1000 100 5 1 false
      (by norm_num) (by norm_num) (by norm_num) (le_refl 1)⟩

/-- C4: for every input satisfying the precondition the sum of the
`yearEndInterest` fields over the returned summaries equals the total
interest accrued over all `years * 12` months of the simulation (the
per-month interest sum `yearInterest` over the whole horizon): nothing is
double-counted or lost at year boundaries. -/
theorem schedule_interest_partition (i m a : ℚ) (years : Nat) (dep : Bool)
    (hi : 0 ≤ i) (hm : 0 ≤ m) (ha : 0 ≤ a) (hy : 1 ≤ years) :
    ((calculateSchedule i m a years dep).map YearSummary.yearEndInterest).sum
      = yearInterest (if dep then m else 0) (a / 100 / 12) i (years * 12) := by
  simp only [calculateSchedule_eq_specCompute, specCompute]
  exact specYears_interest_sum _ _ years i 1

/-- Witness for C4 at `1000, 100, 5`, two years, with deposit. -/
theorem schedule_interest_partition_witness :
    (0 : ℚ) ≤ 1000 ∧ (0 : ℚ) ≤ 100 ∧ (0 : ℚ) ≤ 5 ∧ (1 : Nat) ≤ 2 ∧
      ((calculateSchedule 1000 100 5 2 true).map YearSummary.yearEndInterest).sum
        = yearInterest (if true then (100 : ℚ) else 0) (5 / 100 / 12) 1000 (2 * 12) :=
  ⟨by norm_num, by norm_num, by norm_num, by norm_num,
    schedule_interest_partition 1000 100 5 2 true
      (by norm_num) (by norm_num) (by norm_num) (by norm_num)⟩

/-- C5: with identical inputs except `applyDeposit`, every year's
`yearEndBalance` of the `true` run is ≥ that of the `false` run, and
strictly greater whenever `monthlyDeposit > 0`. The runs are paired
year-by-year with `zip` (both have length `years` by C3). -/
theorem schedule_deposit_dominance (i m a : ℚ) (years : Nat)
    (hi : 0 ≤ i) (hm : 0 ≤ m) (ha : 0 ≤ a) (hy : 1 ≤ years) :
    ∀ p ∈ (calculateSchedule i m a years false).zip (calculateSchedule i m a years true),
      YearSummary.yearEndBalance p.1 ≤ YearSummary.yearEndBalance p.2 ∧
        (0 < m → YearSummary.yearEndBalance p.1 < YearSummary.yearEndBalance p.2) := by
  have hr : (0 : ℚ) ≤ a / 100 / 12 := by positivity
  intro p hp
  simp only [calculateSchedule_eq_specCompute, specCompute, Bool.false_eq_true,
    if_false, if_true] at hp
  exact specYears_zip_dominance (a / 100 / 12) hr m hm years i i 1 le_rfl p hp

/-- Witness for C5 at `1000, 100, 5`, one year. -/
theorem schedule_deposit_dominance_witness :
    (0 : ℚ) ≤ 1000 ∧ (0 : ℚ) ≤ 100 ∧ (0 : ℚ) ≤ 5 ∧ (1 : Nat) ≤ 1 ∧
      (∀ p ∈ (calculateSchedule 1000 100 5 1 false).zip (calculateSchedule 1000 100 5 1 true),
        YearSummary.yearEndBalance p.1 ≤ YearSummary.yearEndBalance p.2 ∧
          ((0 : ℚ) < 100 → YearSummary.yearEndBalance p.1 < YearSummary.yearEndBalance p.2)) :=
  ⟨by norm_num, by norm_num, by norm_num, le_refl 1,
    schedule_deposit_dominance 1000 100 5 1
      (by norm_num) (by norm_num) (by norm_num) (le_refl 1)⟩

/-- C6: with `annualRatePercent = 0` and `applyDeposit = false`, every
returned summary has `yearEndBalance = initialBalance` and
`yearEndInterest = 0`, for any `monthlyDeposit ≥ 0`. -/
theorem schedule_zero_rate_identity (i m : ℚ) (years : Nat)
    (hi : 0 ≤ i) (hm : 0 ≤ m) (hy : 1 ≤ years) :
    ∀ s ∈ calculateSchedule i m 0 years false,
      YearSummary.yearEndBalance s = i ∧ YearSummary.yearEndInterest s = 0 := by
  intro s hs
  rw [calculateSchedule_eq_specCompute] at hs
  simp only [specCompute] at hs
  norm_num at hs
  exact specYears_zero_rate i years 1 s hs

/-- Witness for C6 at `initialBalance = 1000`, `monthlyDeposit = 100`,
`years = 2`. -/
theorem schedule_zero_rate_identity_witness :
    (0 : ℚ) ≤ 1000 ∧ (0 : ℚ) ≤ 100 ∧ (1 : Nat) ≤ 2 ∧
      (∀ s ∈ calculateSchedule 1000 100 0 2 false,
        YearSummary.yearEndBalance s = 1000 ∧ YearSummary.yearEndInterest s = 0) :=
  ⟨by norm_num, by norm_num, by norm_num,
    schedule_zero_rate_identity 1000 100 2 (by norm_num) (by norm_num) (by norm_num)⟩

/-- C7: `monthlyDeposit = 0` with `applyDeposit = true` returns exactly the
sequence of the `applyDeposit = false` call on the same other inputs, and
with `applyDeposit = false` the result does not depend on `monthlyDeposit`
at all (it is treated as 0). -/
theorem schedule_deposit_flag_equiv (i m m' a : ℚ) (years : Nat) :
    calculateSchedule i 0 a years true = calculateSchedule i m a years false ∧
      calculateSchedule i m a years false = calculateSchedule i m' a years false :=
  ⟨rfl, rfl⟩

/-- C8: `calculateSchedule` is a total pure function (it is embedded as a
Lean function, so it terminates and has no side effects or exceptions by
construction), and on the out-of-precondition input `years = 0` it returns
the empty sequence rather than failing. -/
theorem schedule_years_zero_empty (i m a : ℚ) (dep : Bool) :
    calculateSchedule i m a 0 dep = [] := rfl

/-- C2, counterexample: the claim that `readInputs` rejects whenever a
parsed field is not a finite number is false — an `Infinity` rate (parsed,
e.g., from the string `1e999`) is not `NaN`, not negative, and not the
`years` field, so the gate accepts it even though it is not finite. -/
theorem readInputs_accepts_nonfinite_rate :
    JsNum.isFinite .posInf = false ∧
      readInputs (.finite 1000) (.finite 100) .posInf (.finite 5)
        = .accepted (.finite 1000) (.finite 100) .posInf (.finite 5) := by
  refine ⟨rfl, ?_⟩
  unfold readInputs
  norm_num [JsNum.isNaN, JsNum.ltZero, JsNum.isInteger, JsNum.leZero]

/-- C2 as amended: `readInputs` returns a rejection (`ok: false` with a
human-readable message) whenever any of the four parsed fields is `NaN`
(not, as claimed, whenever any is non-finite: see
`readInputs_accepts_nonfinite_rate`), or `initial`, `monthly` or `rate` is
negative, or `years` is not a positive integer; and on rejection
`runCalculation` does not invoke the core. -/
theorem readInputs_rejects_and_blocks_core (i m r y : JsNum)
    (h : i.isNaN = true ∨ m.isNaN = true ∨ r.isNaN = true ∨ y.isNaN = true
      ∨ i.ltZero = true ∨ m.ltZero = true ∨ r.ltZero = true
      ∨ y.isInteger = false ∨ y.leZero = true) :
    (∃ msg, readInputs i m r y = .rejected msg) ∧ runCalculation i m r y = none := by
  have hrej : ∃ msg, readInputs i m r y = .rejected msg := by
    unfold readInputs
    by_cases h1 : (i.isNaN || m.isNaN || r.isNaN || y.isNaN) = true
    · rw [if_pos h1]; exact ⟨_, rfl⟩
    · rw [if_neg h1]
      by_cases h2 : (i.ltZero || m.ltZero || r.ltZero) = true
      · rw [if_pos h2]; exact ⟨_, rfl⟩
      · rw [if_neg h2]
        by_cases h3 : (!y.isInteger || y.leZero) = true
        · rw [if_pos h3]; exact ⟨_, rfl⟩
        · exfalso
          simp only [Bool.or_eq_true, not_or, Bool.not_eq_true] at h1 h2 h3
          rcases h with h | h | h | h | h | h | h | h | h <;> simp_all
  obtain ⟨msg, hmsg⟩ := hrej
  refine ⟨⟨msg, hmsg⟩, ?_⟩
  unfold runCalculation
  rw [hmsg]

/-- Witness for the amended C2 at a `NaN` initial balance. -/
theorem readInputs_rejects_and_blocks_core_witness :
    (JsNum.isNaN .nan = true ∨ JsNum.isNaN (.finite 100) = true
        ∨ JsNum.isNaN (.finite 5) = true ∨ JsNum.isNaN (.finite 5) = true
        ∨ JsNum.ltZero .nan = true ∨ JsNum.ltZero (.finite 100) = true
        ∨ JsNum.ltZero (.finite 5) = true ∨ JsNum.isInteger (.finite 5) = false
        ∨ JsNum.leZero (.finite 5) = true)
      ∧ ((∃ msg, readInputs .nan (.finite 100) (.finite 5) (.finite 5) = .rejected msg)
        ∧ runCalculation .nan (.finite 100) (.finite 5) (.finite 5) = none) :=
  ⟨Or.inl rfl, readInputs_rejects_and_blocks_core _ _ _ _ (Or.inl rfl)⟩

/-- C9, counterexample: with `1000, 100, 5%, 5` years and the deposit
applied, the first returned summary's `yearEndBalance` does not agree with
the claimed 2351.16 to two decimal places (its exact value is ≈ 2284.16). -/
theorem schedule_concrete_example_refuted :
    ¬ ((calculateSchedule 1000 100 5 5 true).headI.yearEndBalance - 2351.16 < 1 / 200 ∧
        -(1 / 200 : ℚ) < (calculateSchedule 1000 100 5 5 true).headI.yearEndBalance - 2351.16) := by
  simp only [calculateSchedule_eq_specCompute]
  norm_num [specCompute, specYears, yearBalance, yearInterest]

/-- C9 as amended: with `initialBalance = 1000`, `monthlyDeposit = 100`,
`annualRatePercent = 5`, `years = 5`, the first returned summary has
`yearEndBalance ≈ 1051.16` and `yearEndInterest ≈ 51.16` without the
deposit (agreeing to two decimal places, i.e. within 1/200), and
`yearEndBalance ≈ 2284.16` — not 2351.16 — with the deposit. -/
theorem schedule_concrete_example :
    (1051.16 - 1 / 200 : ℚ) < (calculateSchedule 1000 100 5 5 false).headI.yearEndBalance ∧
      (calculateSchedule 1000 100 5 5 false).headI.yearEndBalance < (1051.16 + 1 / 200 : ℚ) ∧
      (51.16 - 1 / 200 : ℚ) < (calculateSchedule 1000 100 5 5 false).headI.yearEndInterest ∧
      (calculateSchedule 1000 100 5 5 false).headI.yearEndInterest < (51.16 + 1 / 200 : ℚ) ∧
      (2284.16 - 1 / 200 : ℚ) < (calculateSchedule 1000 100 5 5 true).headI.yearEndBalance ∧
      (calculateSchedule 1000 100 5 5 true).headI.yearEndBalance < (2284.16 + 1 / 200 : ℚ) := by
  simp only [calculateSchedule_eq_specCompute]
  norm_num [specCompute, specYears, yearBalance, yearInterest]

/-- C10: the two copies of `calculateSchedule` — `src/app.js` lines 46-82
and `src/unnamed/part_000` lines 28-64 — are extensionally equal: on every
input they return identical sequences of `YearSummary` values. -/
theorem part000_calculateSchedule_agrees (i m a : ℚ) (years : Nat) (dep : Bool) :
    Part000.calculateSchedule i m a years dep = calculateSchedule i m a years dep := by
  have h := stateOfPart000_runFrom (if dep then m else 0) a (years * 12)
    ⟨[], i, 0, 1⟩ 1
  exact congrArg CalcState.results h
